import Mathlib

/-!
Verification development for the `area-calculator-v2` web server
(`src/Server/src/webserver/`).  The Rust sources are shallowly embedded:
pure functions become Lean functions, code that can panic returns
`Except`/`Option` (the error value marks the concrete panic site), and the
stateful `WebServer` becomes explicit state passing.  String splitting is
embedded by structural recursion over the character list with the exact
semantics of the Rust `str::split_whitespace` / `str::split(":")` calls
used by the source.
-/

namespace WebSrv

/-! ## String helpers (models of the Rust splitting primitives) -/

/-- Tokens of a character list split on whitespace runs, dropping empty
pieces: the semantics of Rust `str::split_whitespace` as used in
`request.rs` line 27. `cur` is the current token accumulated in reverse. -/
def wsTokens : List Char → List Char → List (List Char)
  | [], cur => if cur = [] then [] else [cur.reverse]
  | c :: cs, cur =>
    if c.isWhitespace then
      (if cur = [] then wsTokens cs [] else cur.reverse :: wsTokens cs [])
    else wsTokens cs (c :: cur)

/-- Model of Rust `s.split_whitespace().collect::<Vec<_>>()`. -/
def split_whitespace (s : String) : List String :=
  (wsTokens s.toList []).map List.asString

/-- Split on a separator character keeping empty pieces: the semantics of
Rust `str::split(":")` as used in `request.rs` line 37 (`"".split(":")`
yields `[""]`, `"a:".split(":")` yields `["a", ""]`). -/
def splitSepChar (sep : Char) : List Char → List Char → List String
  | [], cur => [cur.reverse.asString]
  | c :: cs, cur =>
    if c = sep then cur.reverse.asString :: splitSepChar sep cs []
    else splitSepChar sep cs (c :: cur)

/-- Model of Rust `s.split(sep).collect::<Vec<_>>()` for a one-character
separator. -/
def splitStr (s : String) (sep : Char) : List String :=
  splitSepChar sep s.toList []

/-! ## `http_method.rs` -/

/-- `HttpMethod` enum (`http_method.rs` lines 7-13). -/
inductive HttpMethod where
  | GET
  | POST
  | PUT
  | DELETE
  | Unknown
  deriving DecidableEq, Repr

/-- `Display for HttpMethod` (`http_method.rs` lines 17-27). -/
def HttpMethod.fmt : HttpMethod → String
  | .GET => "GET"
  | .POST => "POST"
  | .PUT => "PUT"
  | .DELETE => "DELETE"
  | .Unknown => "UNKNOWN"

/-- `FromStr for HttpMethod` (`http_method.rs` lines 31-43); the Rust
function returns `Result<Self, ()>` and `none` stands for `Err(())`. -/
def HttpMethod.from_str : String → Option HttpMethod
  | "GET" => some .GET
  | "POST" => some .POST
  | "PUT" => some .PUT
  | "DELETE" => some .DELETE
  | _ => none

/-! ## `http_status.rs` -/

/-- `HttpStatus` enum (`http_status.rs` lines 4-8). -/
inductive HttpStatus where
  | Ok
  | NotFound
  | InternalServerError
  deriving DecidableEq, Repr

/-- `Display for HttpStatus` (`http_status.rs` lines 11-19). -/
def HttpStatus.fmt : HttpStatus → String
  | .Ok => "200 OK"
  | .NotFound => "404 Not Found"
  | .InternalServerError => "500 Internal Server Error"

/-! ## `response.rs` -/

/-- `Response` struct (`response.rs` lines 6-10), field order as in the
source. -/
structure Response where
  headers : List (String × String)
  status : HttpStatus
  body : String
  deriving DecidableEq, Repr

/-- `Response::new` (`response.rs` lines 23-32): argument order
`(status, body, headers)` as in the source. -/
def Response.new (status : HttpStatus) (body : String)
    (headers : List (String × String)) : Response :=
  { headers := headers, status := status, body := body }

/-- `Response::to_string` (`response.rs` lines 38-42): status line, the
headers joined with CRLF, a double CRLF, then the body. -/
def Response.to_string (r : Response) : String :=
  let status_line := "HTTP/1.1 " ++ r.status.fmt
  let headers := String.intercalate "\r\n"
    (r.headers.map (fun kv => kv.1 ++ ": " ++ kv.2))
  status_line ++ "\r\n" ++ headers ++ "\r\n" ++ "\r\n" ++ r.body

/-! ## `request.rs` -/

/-- `Request` struct (`request.rs` lines 8-13). -/
structure Request where
  method : HttpMethod
  path : String
  headers : List (String × String)
  body : String
  deriving DecidableEq, Repr

/-- The panic sites of `Request::new` (`request.rs` lines 24-50), which has
no error handling: each constructor marks one concrete panic. -/
inductive ParseError where
  /-- `raw_request[0]` with an empty vector (line 27). -/
  | noRequestLine
  /-- `first_line[0]` or `first_line[1]` out of bounds (lines 28-29). -/
  | malformedRequestLine
  /-- `.unwrap()` on the `Err(())` of `HttpMethod::from_str` (line 32). -/
  | unknownMethodToken
  /-- `header_parts[1]` out of bounds for a line with no `:` (line 38). -/
  | malformedHeader
  deriving DecidableEq, Repr

/-- The header loop of `Request::new` (`request.rs` lines 35-39): each
line is split on `:` and the first two pieces are kept; a line with fewer
than two pieces panics (`malformedHeader`). -/
def parseHeaders : List String → Except ParseError (List (String × String))
  | [] => .ok []
  | header :: rest =>
    match splitStr header ':' with
    | k :: v :: _ => (parseHeaders rest).map (fun hs => (k, v) :: hs)
    | _ => .error .malformedHeader

/-- `Request::new` (`request.rs` lines 24-50).  The Rust function panics on
the inputs mapped to `.error` here; on success the body is always empty
(body parsing is a TODO in the source). -/
def Request.new (raw_request : List String) : Except ParseError Request :=
  match raw_request with
  | [] => .error .noRequestLine
  | line0 :: headerLines =>
    match split_whitespace line0 with
    | method :: path :: _ =>
      match HttpMethod.from_str method with
      | none => .error .unknownMethodToken
      | some http_method =>
        (parseHeaders headerLines).map (fun headers =>
          { method := http_method, path := path,
            headers := headers, body := "" })
    | _ => .error .malformedRequestLine

/-! ## `routehandler.rs` -/

/-- Outcome of invoking a handler: Rust handlers return `Response` but may
panic; `panics msg` models an abrupt failure whose diagnostic payload is
`msg` (the downcast string of `catch_unwind`'s `Err`). -/
inductive HandlerResult where
  | ok (resp : Response)
  | panics (msg : String)

/-- `RouteHandler` struct (`routehandler.rs` lines 26-31); the
`Arc<dyn HandlerFn>` becomes a plain function value. -/
structure RouteHandler where
  method : HttpMethod
  path : String
  path_pattern : String
  handler : Request → HandlerResult

/-- `RouteHandler::new` (`routehandler.rs` lines 42-56): `path_pattern` is
set to `path`. -/
def RouteHandler.new (method : HttpMethod) (path : String)
    (handler : Request → HandlerResult) : RouteHandler :=
  { method := method, path := path, path_pattern := path, handler := handler }

/-- `RouteHandler::handles_path` (`routehandler.rs` lines 66-75): the
method must match and the path must be equal as a string. -/
def RouteHandler.handles_path (h : RouteHandler) (method : HttpMethod)
    (path : String) : Bool :=
  if h.method != method then false
  else h.path == path

/-- The route lookup of `handle_connection` (`webserver.rs` lines
224-225): the first registered route whose `handles_path` accepts the
request's method and path. -/
def findRouteHandler (routes : List RouteHandler) (method : HttpMethod)
    (path : String) : Option RouteHandler :=
  routes.find? (fun route => route.handles_path method path)

/-! ## `webserver.rs`: the `WebServer` struct and its methods -/

/-- `WebServer` struct (`webserver.rs` lines 16-25).  `should_stop` is the
value of the `AtomicBool`; `local_addr` abstracts `SocketAddr` to a `Nat`;
`listener_handle` and `listener` keep only the presence of the
`JoinHandle` / `TcpListener` handles. -/
structure WebServer where
  routes : List RouteHandler
  is_running : Bool
  should_stop : Bool
  local_addr : Option Nat
  listener_handle : Option Unit
  listener : Option Unit
  address : String
  port : String

/-- `WebServer::new` (`webserver.rs` lines 38-50). -/
def WebServer.new (url : String) (port : String) : WebServer :=
  { routes := [], address := url, port := port, is_running := false,
    should_stop := false, local_addr := none, listener_handle := none,
    listener := none }

/-- The `unsupported_wildcards` array of `WebServer::add_route`
(`webserver.rs` lines 88-90); the source lists one-character strings, and
`contains` of a one-character string is membership of its character. -/
def unsupported_wildcards : List Char :=
  ['\x7b', '\x7d', '*', '?', '+', '|', '^', '$', '.', '\\', '#', '&', '=']

/-- `WebServer::add_route` (`webserver.rs` lines 57-102).  The Rust method
mutates `self` and returns a `bool`; here it returns the new state and the
returned boolean.  Checks in source order: server running, duplicate
`(path, method)`, empty path, `Unknown` method, unsupported wildcard in
`path_pattern`; otherwise the handler is pushed at the end. -/
def WebServer.add_route (s : WebServer) (handler : RouteHandler) :
    WebServer × Bool :=
  if s.is_running then (s, false)
  else if s.routes.any (fun r =>
      r.path == handler.path && r.method == handler.method) then (s, false)
  else if handler.path == "" then (s, false)
  else if handler.method == HttpMethod.Unknown then (s, false)
  else if unsupported_wildcards.any (fun w =>
      handler.path_pattern.toList.contains w) then (s, false)
  else ({ s with routes := s.routes ++ [handler] }, true)

/-- `WebServer::start` (`webserver.rs` lines 106-159) in the case where the
bind succeeds (a bind failure is `unwrap`-fatal to the caller and yields no
state).  `addrResult` is the result of `local_addr()`: `some a` for `Ok`
(line 118), `none` for `Err` (line 121, which only logs).  The listener is
bound and then `take`n out of the struct and moved into the spawned accept
thread (line 131), so the `listener` field is `none` in the resulting
state; the join handle is stored (line 134). -/
def WebServer.start (s : WebServer) (addrResult : Option Nat) : WebServer :=
  if s.is_running then s
  else
    { s with
      listener := none,
      local_addr := match addrResult with
        | some a => some a
        | none => s.local_addr,
      is_running := true,
      should_stop := false,
      listener_handle := some () }

/-- `WebServer::stop` (`webserver.rs` lines 162-195): early return when not
running, when the join handle is missing, or when the local address is
missing; otherwise set the stop flag, take and join the handle, and clear
`is_running`. -/
def WebServer.stop (s : WebServer) : WebServer :=
  if !s.is_running then s
  else if s.listener_handle.isNone then s
  else if s.local_addr.isNone then s
  else { s with should_stop := true, listener_handle := none,
                is_running := false }

/-- Server states reachable from `new` by any sequence of `add_route`,
`start` (with a successful bind and any `local_addr()` result) and `stop`
calls. -/
inductive Reachable : WebServer → Prop where
  | new (url port : String) : Reachable (WebServer.new url port)
  | add_route {s : WebServer} (h : RouteHandler) :
      Reachable s → Reachable (s.add_route h).1
  | start {s : WebServer} (addrResult : Option Nat) :
      Reachable s → Reachable (s.start addrResult)
  | stop {s : WebServer} : Reachable s → Reachable s.stop

/-! ## `webserver.rs`: `handle_connection` and the accept loop -/

/-- The fixed 404 HTML page of `handle_connection` (`webserver.rs` lines
233-249), byte for byte the Rust raw string literal. -/
def body404 : String :=
  "<!DOCTYPE html>\n                <html lang=\"en\">\n                <head>\n                    <meta charset=\"UTF-8\">\n                    <title>404 Not Found</title>\n                    <style>\n                        body \x7b font-family: sans-serif; background: #f8f8f8; color: #333; text-align: center; margin-top: 10%; \x7d\n                        h1 \x7b font-size: 3em; margin-bottom: 0.2em; \x7d\n                        p \x7b font-size: 1.2em; \x7d\n                    </style>\n                </head>\n                <body>\n                    <h1>404 Not Found</h1>\n                    <p>The page you requested could not be found.</p>\n                </body>\n                </html>\n                "

/-- The fixed 500 HTML page of `handle_connection` (`webserver.rs` lines
287-303), byte for byte the Rust raw string literal. -/
def body500 : String :=
  "<!DOCTYPE html>\n                    <html lang=\"en\">\n                    <head>\n                        <meta charset=\"UTF-8\">\n                        <title>500 Internal Server Error</title>\n                        <style>\n                            body \x7b font-family: sans-serif; background: #f8f8f8; color: #333; text-align: center; margin-top: 10%; \x7d\n                            h1 \x7b font-size: 3em; margin-bottom: 0.2em; \x7d\n                            p \x7b font-size: 1.2em; \x7d\n                        </style>\n                    </head>\n                    <body>\n                        <h1>500 Internal Server Error</h1>\n                        <p>The server encountered an unexpected condition.</p>\n                    </body>\n                    </html>\n                    "

/-- The 404 response built by `handle_connection` (`webserver.rs` lines
231-251). -/
def not_found_response : Response :=
  Response.new .NotFound body404
    [("Content-Type", "text/html; charset=utf-8")]

/-- The 500 response built by the `catch_unwind` `Err` arm of
`handle_connection` (`webserver.rs` lines 285-305). -/
def internal_error_response : Response :=
  Response.new .InternalServerError body500
    [("Content-Type", "text/html; charset=utf-8")]

/-- One accepted connection, as far as `handle_connection` can observe it:
the raw text lines of the stream and whether writing the response back
will succeed. -/
structure Conn where
  rawLines : List String
  writeOk : Bool

/-- The panic sites of `handle_connection` (`webserver.rs` lines 204-313):
a parse panic inside `Request::new` (line 220) or the `unwrap` of a failed
`write_all` (line 311).  A panic unwinds out of `handle_connection` and
kills the accept-loop thread. -/
inductive ConnPanic where
  | parse (e : ParseError)
  | writeFail
  deriving DecidableEq, Repr

/-- What one call of `handle_connection` does: either a response was
written to the stream, or the function panicked. -/
inductive ConnOutcome where
  | wrote (resp : Response)
  | panicked (e : ConnPanic)
  deriving Repr

/-- The response selection of `handle_connection` (`webserver.rs` lines
224-308): no matching route yields the fixed 404 response; a match
invokes the handler inside `catch_unwind`, whose `Err` arm yields the
fixed 500 response regardless of the panic payload (the payload is only
logged, lines 276-282). -/
def route_response (routes : List RouteHandler) (request : Request) :
    Response :=
  match findRouteHandler routes request.method request.path with
  | none => not_found_response
  | some handler =>
    match handler.handler request with
    | .ok resp => resp
    | .panics _ => internal_error_response

/-- `handle_connection` (`webserver.rs` lines 204-313): the line reader
(lines 211-215) collects lines up to and excluding the first empty line,
`Request::new` parses them (line 220, a parse panic escapes), the
response is selected by the route lookup (`route_response`), and the
serialized response is written back with `unwrap` (line 311, a write
failure panics). -/
def handle_connection (routes : List RouteHandler) (c : Conn) : ConnOutcome :=
  match Request.new (c.rawLines.takeWhile (fun line => !(line == ""))) with
  | .error e => .panicked (.parse e)
  | .ok request =>
    if c.writeOk then .wrote (route_response routes request)
    else .panicked .writeFail

/-- The body of the accept loop spawned by `WebServer::start`
(`webserver.rs` lines 134-157) while the stop flag stays clear: each
accepted connection is handled synchronously by `handle_connection`, and a
panic inside `handle_connection` unwinds out of the closure and terminates
the thread, so the remaining connections are never served. -/
def serveLoop (routes : List RouteHandler) : List Conn → List ConnOutcome
  | [] => []
  | c :: rest =>
    match handle_connection routes c with
    | .wrote resp => .wrote resp :: serveLoop routes rest
    | .panicked e => [.panicked e]

/-! ## Apparatus for the serializer claims -/

/-- The serializer as the spec words it (to be compared with the source's
`Response.to_string`): the status line followed by CRLF, then each header
followed by CRLF, then one blank line, then the raw body. -/
def serializeSpec (r : Response) : String :=
  "HTTP/1.1 " ++ r.status.fmt ++ "\r\n" ++
    ((r.headers.map (fun kv => kv.1 ++ ": " ++ kv.2 ++ "\r\n")).foldr
      (fun a b => a ++ b) "") ++
    "\r\n" ++ r.body

/-- Split a string on the two-character separator CRLF, keeping empty
pieces. -/
def splitCRLFAux : List Char → List Char → List String
  | [], cur => [cur.reverse.asString]
  | '\r' :: '\n' :: cs, cur => cur.reverse.asString :: splitCRLFAux cs []
  | c :: cs, cur => splitCRLFAux cs (c :: cur)

/-- Lines of a wire string, split on CRLF. -/
def splitCRLF (s : String) : List String :=
  splitCRLFAux s.toList []

/-- Recover an `HttpStatus` from a serialized status line by inverting the
source's `Display for HttpStatus` texts. -/
def statusFromLine (line : String) : Option HttpStatus :=
  if line == "HTTP/1.1 " ++ HttpStatus.fmt .Ok then some .Ok
  else if line == "HTTP/1.1 " ++ HttpStatus.fmt .NotFound then
    some .NotFound
  else if line == "HTTP/1.1 " ++ HttpStatus.fmt .InternalServerError then
    some .InternalServerError
  else none

/-- Re-parse a serialized response: CRLF lines, the status line inverted
through the status texts, the header lines fed to the program's own
header-splitting (`parseHeaders` from `Request::new`), and the body taken
verbatim after the blank separator line. -/
def reparse (wire : String) :
    Option (HttpStatus × List (String × String) × String) :=
  match splitCRLF wire with
  | [] => none
  | statusLine :: rest =>
    let headerLines := rest.takeWhile (fun l => !(l == ""))
    let bodyLines := (rest.dropWhile (fun l => !(l == ""))).drop 1
    let body := String.intercalate "\r\n" bodyLines
    match statusFromLine statusLine, parseHeaders headerLines with
    | some st, .ok hs => some (st, hs, body)
    | _, _ => none

/-! ## Helper lemmas -/

/-- `add_route` only ever touches the `routes` field: the lifecycle fields
of the resulting state are those of the input state. -/
theorem add_route_fst_fields (s : WebServer) (h : RouteHandler) :
    ((s.add_route h).1).is_running = s.is_running ∧
    ((s.add_route h).1).listener_handle = s.listener_handle ∧
    ((s.add_route h).1).listener = s.listener := by
  unfold WebServer.add_route
  split_ifs <;> exact ⟨rfl, rfl, rfl⟩

/-- `handles_path` accepts exactly the route's own `(method, path)` key:
exact equality on both fields, no normalization. -/
theorem handles_path_eq_true (h : RouteHandler) (m : HttpMethod)
    (p : String) :
    h.handles_path m p = true ↔ h.method = m ∧ h.path = p := by
  unfold RouteHandler.handles_path
  by_cases hm : h.method = m
  · simp [hm]
  · simp [hm]

/-- Concatenating after a string fold is folding onto the tail. -/
theorem foldr_append_str (l : List String) (t : String) :
    l.foldr (fun x y => x ++ y) "" ++ t = l.foldr (fun x y => x ++ y) t := by
  induction l with
  | nil => simp
  | cons x xs ih =>
    simp only [List.foldr_cons, String.append_assoc, ih]

/-- The CRLF join of `Response::to_string`, continued by one more
separator and a tail, equals the per-item `x ++ sep` concatenation onto
that tail. -/
theorem go_foldr (sep t : String) (l : List String) (a : String) :
    String.intercalate.go a sep l ++ (sep ++ t) =
      a ++ (sep ++ (l.map (fun x => x ++ sep)).foldr (fun x y => x ++ y) t) := by
  induction l generalizing a with
  | nil => simp [String.intercalate.go]
  | cons x xs ih =>
    show String.intercalate.go (a ++ sep ++ x) sep xs ++ (sep ++ t) = _
    rw [ih]
    simp [String.append_assoc]

/-- Pairwise distinct `(method, path)` keys: the registry invariant that
`add_route` maintains by rejecting duplicate registrations. -/
def keysUnique (routes : List RouteHandler) : Prop :=
  routes.Pairwise (fun a b => ¬(a.method = b.method ∧ a.path = b.path))

/-- `add_route` preserves key uniqueness: a successful registration has
passed the duplicate check. -/
theorem keysUnique_add_route (s : WebServer) (h : RouteHandler)
    (hu : keysUnique s.routes) : keysUnique ((s.add_route h).1).routes := by
  unfold WebServer.add_route
  split_ifs with h1 h2 h3 h4 h5 <;> try exact hu
  unfold keysUnique at hu ⊢
  rw [List.pairwise_append]
  refine ⟨hu, List.pairwise_singleton .., ?_⟩
  intro a ha b hb
  have hb' := List.mem_singleton.1 hb
  subst hb'
  intro hcon
  apply h2
  simp only [List.any_eq_true, Bool.and_eq_true, beq_iff_eq]
  exact ⟨a, ha, hcon.2, hcon.1⟩

/-- Every reachable server's registry has pairwise distinct
`(method, path)` keys: the hypothesis of the matching theorem holds for
every registry actually built through the public interface. -/
theorem reachable_keysUnique (s : WebServer) (hs : Reachable s) :
    keysUnique s.routes := by
  induction hs with
  | new url port => exact List.Pairwise.nil
  | add_route h _ ih => exact keysUnique_add_route _ h ih
  | start addrResult _ ih =>
    unfold WebServer.start
    split_ifs <;> exact ih
  | stop _ ih =>
    unfold WebServer.stop
    split_ifs <;> exact ih

/-! ## Concrete fixtures used by witnesses -/

/-- A concrete route: `GET /` answered with `200 OK` and body `hello`
(the route registered by `main.rs`). -/
def routeRoot : RouteHandler :=
  RouteHandler.new .GET "/" (fun _ => .ok (Response.new .Ok "hello" []))

/-- A concrete route whose handler raises an abrupt failure with
diagnostic payload `"boom"`. -/
def routeBoom : RouteHandler :=
  RouteHandler.new .GET "/" (fun _ => .panics "boom")

/-- The parsed form of the request line `"GET / HTTP/1.1"` with no
headers. -/
def reqRootGet : Request :=
  { method := .GET, path := "/", headers := [], body := "" }

/-! ## Theorems -/

/-- Claim C2: the claim says an unrecognized method token yields a
`Request` with method `Unknown`; the code instead calls `.unwrap()` on the
`Err(())` returned by `HttpMethod::from_str`, panicking.  Evaluating the
embedding at the request line `"PATCH / HTTP/1.1"`: `from_str` yields no
method, `Request::new` reaches the unwrap panic instead of producing a
request, and the panic kills the accept loop. -/
theorem unknown_method_token_panics :
    HttpMethod.from_str "PATCH" = none ∧
    Request.new ["PATCH / HTTP/1.1"] = .error .unknownMethodToken ∧
    serveLoop [routeRoot] [⟨["PATCH / HTTP/1.1"], true⟩] =
      [.panicked (.parse .unknownMethodToken)] :=
  ⟨rfl, rfl, rfl⟩

/-- Claim C3: the claim says a malformed request line, a malformed header,
or a write failure is logged, drops only that connection, and the server
continues serving subsequent connections.  Evaluating the embedding: in
all three cases `handle_connection` panics (index out of bounds or
`unwrap`), the panic unwinds out of the accept-loop thread, and the
subsequent well-formed connection is never served (the outcome list stops
at the panic instead of containing a second entry). -/
theorem malformed_input_kills_accept_loop :
    serveLoop [routeRoot]
        [⟨["GET"], true⟩, ⟨["GET / HTTP/1.1"], true⟩] =
      [.panicked (.parse .malformedRequestLine)] ∧
    serveLoop [routeRoot]
        [⟨["GET / HTTP/1.1", "NoColonHere"], true⟩,
         ⟨["GET / HTTP/1.1"], true⟩] =
      [.panicked (.parse .malformedHeader)] ∧
    serveLoop [routeRoot]
        [⟨["GET / HTTP/1.1"], false⟩, ⟨["GET / HTTP/1.1"], true⟩] =
      [.panicked .writeFail] :=
  ⟨rfl, rfl, rfl⟩

/-- Claim C7 counterexample: serializing
`Response.new .Ok "hi" [("Content-Type", "text/plain")]` and re-parsing
with the program's own header-splitting does not recover the same headers:
the recovered value is `" text/plain"`, with the leading space introduced
by the serializer's `": "` separator and not trimmed by the splitting. -/
theorem roundtrip_cex :
    reparse (Response.new .Ok "hi" [("Content-Type", "text/plain")]).to_string ≠
      some (.Ok, [("Content-Type", "text/plain")], "hi") := by
  decide

/-- Claim C7 amended: the round trip recovers the same status, the same
header names in the same order, and the same body, but each header value
comes back with a single leading space prepended (`" text/plain"`). -/
theorem roundtrip_amended :
    reparse (Response.new .Ok "hi" [("Content-Type", "text/plain")]).to_string =
      some (.Ok, [("Content-Type", " text/plain")], "hi") :=
  rfl

/-- Claim C8: for every header line the parser keeps only the first two
`:`-separated pieces, untrimmed; in particular
`"Host: example.com:8080"` parses to `("Host", " example.com")`, dropping
the text after the second `:`. -/
theorem header_split_keeps_first_two (line k v : String)
    (rest : List String) (hsplit : splitStr line ':' = k :: v :: rest) :
    parseHeaders [line] = .ok [(k, v)] ∧
    Request.new ["GET /x HTTP/1.1", "Host: example.com:8080"] =
      .ok { method := .GET, path := "/x",
            headers := [("Host", " example.com")], body := "" } := by
  constructor
  · unfold parseHeaders
    rw [hsplit]
    rfl
  · rfl

/-- Claim C8 witness: the theorem applied to the claim's example line. -/
theorem header_split_keeps_first_two_w :
    splitStr "Host: example.com:8080" ':' =
      "Host" :: " example.com" :: ["8080"] ∧
    parseHeaders ["Host: example.com:8080"] =
      .ok [("Host", " example.com")] :=
  ⟨rfl, (header_split_keeps_first_two "Host: example.com:8080" "Host"
    " example.com" ["8080"] rfl).1⟩

/-- Claim C1: when the request parses, a route matches, and the matched
handler raises an abrupt failure with any diagnostic payload `msg`, the
dispatcher writes exactly `internal_error_response` — status
`InternalServerError`, the single `Content-Type: text/html; charset=utf-8`
header, and the fixed 500 HTML page as body.  The response is the constant
`internal_error_response`, independent of `msg`, so the diagnostic payload
cannot appear in the body; and the accept loop goes on to serve the
remaining connections (`serveLoop` continues past the faulting one). -/
theorem handler_fault_yields_fixed_500 (routes : List RouteHandler)
    (c : Conn) (req : Request) (h : RouteHandler) (msg : String)
    (rest : List Conn)
    (hparse : Request.new (c.rawLines.takeWhile (fun line => !(line == ""))) =
      .ok req)
    (hmatch : findRouteHandler routes req.method req.path = some h)
    (hpanic : h.handler req = .panics msg)
    (hwrite : c.writeOk = true) :
    handle_connection routes c = .wrote internal_error_response ∧
    internal_error_response.status = .InternalServerError ∧
    internal_error_response.headers =
      [("Content-Type", "text/html; charset=utf-8")] ∧
    internal_error_response.body = body500 ∧
    serveLoop routes (c :: rest) =
      .wrote internal_error_response :: serveLoop routes rest := by
  have hr : route_response routes req = internal_error_response := by
    simp [route_response, hmatch, hpanic]
  have hc : handle_connection routes c = .wrote internal_error_response := by
    simp [handle_connection, hparse, hwrite, hr]
  refine ⟨hc, rfl, rfl, rfl, ?_⟩
  conv_lhs => rw [serveLoop]
  rw [hc]

/-- Claim C1 witness: the theorem applied to a panicking handler on
`GET /` with payload `"boom"`. -/
theorem handler_fault_yields_fixed_500_w :
    routeBoom.handler reqRootGet = .panics "boom" ∧
    handle_connection [routeBoom] ⟨["GET / HTTP/1.1"], true⟩ =
      .wrote internal_error_response :=
  ⟨rfl,
    (handler_fault_yields_fixed_500 [routeBoom] ⟨["GET / HTTP/1.1"], true⟩
      reqRootGet routeBoom "boom" [] rfl rfl rfl rfl).1⟩

/-- Claim C9 counterexample: the state reached by `new` then `start`
(successful bind) is reachable, has `is_running = true`, but its
`listener` field — the bound-socket handle — is `none`: `start` moves the
`TcpListener` out of the struct into the accept thread (`webserver.rs`
line 131), so `running == true` does not imply the bound-socket handle is
present. -/
theorem running_invariant_cex :
    Reachable ((WebServer.new "localhost" "7878").start (some 0)) ∧
    ((WebServer.new "localhost" "7878").start (some 0)).is_running = true ∧
    ((WebServer.new "localhost" "7878").start (some 0)).listener = none :=
  ⟨Reachable.start (some 0) (Reachable.new "localhost" "7878"), rfl, rfl⟩

/-- Claim C9 amended: in every state reachable by `new`, `add_route`,
`start` and `stop`, `is_running = true` holds iff the accept-task handle
(`listener_handle`) is present; the bound-socket handle (`listener`) is
`none` in every such state, because `start` moves it into the accept
thread. -/
theorem running_invariant_amended (s : WebServer) (hs : Reachable s) :
    (s.is_running = true ↔ s.listener_handle = some ()) ∧
    s.listener = none := by
  induction hs with
  | new url port => exact ⟨by simp [WebServer.new], rfl⟩
  | add_route h _ ih =>
    rename_i s' _
    obtain ⟨e1, e2, e3⟩ := add_route_fst_fields s' h
    rw [e1, e2, e3]
    exact ih
  | start addrResult _ ih =>
    rename_i s' _
    by_cases hr : s'.is_running
    · simpa [WebServer.start, hr] using ih
    · simp [WebServer.start, hr]
  | stop _ ih =>
    rename_i s' _
    by_cases hr : s'.is_running
    · by_cases hh : s'.listener_handle.isNone
      · simpa [WebServer.stop, hr, hh] using ih
      · by_cases ha : s'.local_addr.isNone
        · simpa [WebServer.stop, hr, hh, ha] using ih
        · simp [WebServer.stop, hr, hh, ha]
          exact ih.2
    · simpa [WebServer.stop, hr] using ih

/-- Claim C9 amended witness: the amended invariant at the freshly
constructed server. -/
theorem running_invariant_amended_w :
    Reachable (WebServer.new "localhost" "7878") ∧
    ((WebServer.new "localhost" "7878").is_running = true ↔
      (WebServer.new "localhost" "7878").listener_handle = some ()) ∧
    (WebServer.new "localhost" "7878").listener = none :=
  ⟨Reachable.new "localhost" "7878",
    running_invariant_amended _ (Reachable.new "localhost" "7878")⟩

/-- Claim C6 counterexample: with an empty header list the claim's byte
string is wrong: `Response::to_string` joins the headers with CRLF (an
empty join) and then unconditionally appends CRLF-CRLF after the status
line's own CRLF, so `Ok`/no-headers/`"hello"` serializes with an extra
blank line, not to `"HTTP/1.1 200 OK\r\n\r\nhello"`. -/
theorem to_string_empty_headers_cex :
    (Response.new .Ok "hello" []).to_string =
      "HTTP/1.1 200 OK\r\n\r\n\r\nhello" ∧
    (Response.new .Ok "hello" []).to_string ≠
      "HTTP/1.1 200 OK\r\n\r\nhello" := by
  exact ⟨rfl, by decide⟩

/-- Claim C6 amended: for a response with at least one header,
serialization emits exactly the status line `"HTTP/1.1 <status-text>"`
with CRLF, each header as `"<name>: <value>"` with CRLF in the response's
own order, one blank line, then the raw body, with no Content-Length
injection (`serializeSpec` is the claim's format, written out); with an
empty header list one extra CRLF is emitted between the status line and
the blank line. -/
theorem to_string_amended (st : HttpStatus) (hs : List (String × String))
    (b : String) :
    (hs ≠ [] → Response.to_string ⟨hs, st, b⟩ = serializeSpec ⟨hs, st, b⟩) ∧
    Response.to_string ⟨[], st, b⟩ =
      "HTTP/1.1 " ++ st.fmt ++ "\r\n" ++ "\r\n" ++ "\r\n" ++ b := by
  constructor
  · intro hne
    rcases hs with _ | ⟨kv, rest⟩
    · exact absurd rfl hne
    · simp only [Response.to_string, serializeSpec, List.map_cons,
        List.foldr_cons, String.intercalate, String.append_assoc]
      rw [go_foldr, foldr_append_str]
      simp [List.map_map, Function.comp_def, String.append_assoc]
  · simp [Response.to_string, String.intercalate, String.append_assoc]

/-- Claim C6 amended witness: the nonempty-header case at the
`Content-Type: text/plain` response. -/
theorem to_string_amended_w :
    ([("Content-Type", "text/plain")] : List (String × String)) ≠ [] ∧
    Response.to_string ⟨[("Content-Type", "text/plain")], .Ok, "hi"⟩ =
      serializeSpec ⟨[("Content-Type", "text/plain")], .Ok, "hi"⟩ :=
  ⟨by decide,
    (to_string_amended .Ok [("Content-Type", "text/plain")] "hi").1
      (by decide)⟩

/-- The rejection condition of `register` as the spec words it (§4.1), to
be compared with the source's `add_route`: server running, duplicate
`(method, path)`, empty path, `Unknown` method, or a reserved wildcard
character occurring in the path. -/
def registerRejectSpec (s : WebServer) (h : RouteHandler) : Prop :=
  s.is_running = true ∨
  (∃ r ∈ s.routes, r.method = h.method ∧ r.path = h.path) ∨
  h.path = "" ∨
  h.method = HttpMethod.Unknown ∨
  (∃ c ∈ unsupported_wildcards, c ∈ h.path.toList)

/-- Claim C4: for a route whose `path_pattern` equals its `path` (which
`RouteHandler::new` guarantees), `add_route` returns `false` and leaves
the state unchanged exactly when the spec's rejection condition holds;
in every other case it appends the route at the end of the registry
(preserving registration order) and returns `true`. -/
theorem add_route_spec (s : WebServer) (h : RouteHandler)
    (hpp : h.path_pattern = h.path) :
    (registerRejectSpec s h → s.add_route h = (s, false)) ∧
    (¬ registerRejectSpec s h →
      s.add_route h = ({ s with routes := s.routes ++ [h] }, true)) := by
  have hdup : (s.routes.any fun r =>
      r.path == h.path && r.method == h.method) = true ↔
      ∃ r ∈ s.routes, r.method = h.method ∧ r.path = h.path := by
    simp only [List.any_eq_true, Bool.and_eq_true, beq_iff_eq]
    exact ⟨fun ⟨r, hr, hp, hm⟩ => ⟨r, hr, hm, hp⟩,
      fun ⟨r, hr, hm, hp⟩ => ⟨r, hr, hp, hm⟩⟩
  have hwc : (unsupported_wildcards.any fun w =>
      h.path_pattern.toList.contains w) = true ↔
      ∃ c ∈ unsupported_wildcards, c ∈ h.path.toList := by
    simp [List.any_eq_true, hpp]
  unfold WebServer.add_route registerRejectSpec
  split_ifs with h1 h2 h3 h4 h5
  · exact ⟨fun _ => rfl, fun hn => absurd (Or.inl h1) hn⟩
  · exact ⟨fun _ => rfl, fun hn => absurd (Or.inr (Or.inl (hdup.1 h2))) hn⟩
  · exact ⟨fun _ => rfl, fun hn =>
      absurd (Or.inr (Or.inr (Or.inl (by simpa using h3)))) hn⟩
  · exact ⟨fun _ => rfl, fun hn =>
      absurd (Or.inr (Or.inr (Or.inr (Or.inl (by simpa using h4))))) hn⟩
  · exact ⟨fun _ => rfl, fun hn =>
      absurd (Or.inr (Or.inr (Or.inr (Or.inr (hwc.1 h5))))) hn⟩
  · refine ⟨fun hrej => ?_, fun _ => rfl⟩
    rcases hrej with hr | hr | hr | hr | hr
    · exact absurd hr h1
    · exact absurd (hdup.2 hr) h2
    · exact absurd (by simpa using hr) h3
    · exact absurd (by simpa using hr) h4
    · exact absurd (hwc.2 hr) h5

/-- Claim C4 witness: the theorem at a fresh server and the `GET /` route,
in the success case. -/
theorem add_route_spec_w :
    routeRoot.path_pattern = routeRoot.path ∧
    ¬ registerRejectSpec (WebServer.new "localhost" "7878") routeRoot ∧
    (WebServer.new "localhost" "7878").add_route routeRoot =
      ({ WebServer.new "localhost" "7878" with routes := [routeRoot] },
        true) :=
  ⟨rfl, by simp [registerRejectSpec, WebServer.new, routeRoot,
      RouteHandler.new, unsupported_wildcards],
    (add_route_spec (WebServer.new "localhost" "7878") routeRoot rfl).2
      (by simp [registerRejectSpec, WebServer.new, routeRoot,
        RouteHandler.new, unsupported_wildcards])⟩

/-- Claim C5: on a registry with pairwise distinct `(method, path)` keys
(the invariant every registry built through `add_route` satisfies, since
duplicates are rejected), the lookup of `handle_connection` returns each
registered route for its own key, and returns none when no registered
route has exactly the queried method and path; matching is exact equality
on both fields, so no trailing-slash folding or case-insensitivity can
make a differing path match. -/
theorem match_route_spec (routes : List RouteHandler)
    (hu : keysUnique routes) (m : HttpMethod) (p : String) :
    (∀ r ∈ routes, r.method = m → r.path = p →
      findRouteHandler routes m p = some r) ∧
    ((∀ r ∈ routes, ¬(r.method = m ∧ r.path = p)) →
      findRouteHandler routes m p = none) := by
  constructor
  · intro r hr hm hp
    unfold keysUnique at hu
    induction routes with
    | nil => cases hr
    | cons x xs ih =>
      rcases List.pairwise_cons.1 hu with ⟨hx, hxs⟩
      rcases List.mem_cons.1 hr with hrx | hrxs
      · subst hrx
        unfold findRouteHandler
        rw [List.find?_cons_of_pos]
        exact (handles_path_eq_true r m p).2 ⟨hm, hp⟩
      · have hxf : x.handles_path m p = false := by
          rcases Bool.eq_false_or_eq_true (x.handles_path m p) with h1 | h0

          · rcases (handles_path_eq_true x m p).1 h1 with ⟨h1m, h1p⟩
            exact absurd ⟨h1m.trans hm.symm, h1p.trans hp.symm⟩ (hx r hrxs)
          · exact h0
        have ih2 := ih hxs hrxs
        unfold findRouteHandler at ih2 ⊢
        simp [List.find?_cons, hxf, ih2]
  · intro hnone
    unfold findRouteHandler
    rw [List.find?_eq_none]
    intro x hx hcontra
    exact hnone x hx ((handles_path_eq_true x m p).1 hcontra)

/-- Claim C5 witness: the theorem applied to the one-route registry
holding `GET /`. -/
theorem match_route_spec_w :
    keysUnique [routeRoot] ∧
    findRouteHandler [routeRoot] .GET "/" = some routeRoot :=
  ⟨by simp [keysUnique],
    (match_route_spec [routeRoot] (by simp [keysUnique]) .GET "/").1
      routeRoot (List.mem_singleton.mpr rfl) rfl rfl⟩

/-- Claim C10: `Request::new` is not total: on the empty line vector
(collected from a connection whose first line is blank) it reaches the
out-of-bounds index `raw_request[0]`; the embedding's error branch is
reachable, and through `handle_connection` the panic escapes. -/
theorem request_new_empty_input_panics :
    Request.new [] = .error .noRequestLine ∧
    handle_connection [routeRoot] ⟨[""], true⟩ =
      .panicked (.parse .noRequestLine) :=
  ⟨rfl, rfl⟩

end WebSrv

